import Mathlib

/-!
Shallow embedding of the quacc repository sources:
the custodian-driven VASP run script (htase/custodian/vasp/run_vasp_custodian.py),
the EMT phonon flow recipe (src/quacc/recipes/emt/phonons.py), and the
MACE core recipes (src/quacc/recipes/mace/core.py).

External library functions (os.path.expandvars, shlex.split, subprocess.call,
yaml.safe_load) are taken as parameters of the embedded script; the script
itself is translated statement by statement.
-/

/-- Python values as they occur in a YAML-loaded configuration dictionary. -/
inductive Val : Type where
  | null : Val
  | bool : Bool → Val
  | int : Int → Val
  | str : String → Val
  | list : List Val → Val
  | dict : List (String × Val) → Val

/-- A Python dictionary with string keys, in insertion order. -/
abbrev Config := List (String × Val)

/-- Python exceptions raised by the embedded code. -/
inductive PyError : Type where
  | environmentError : String → PyError
  | indexError : String → PyError
  | valueError : String → PyError
  | keyError : String → PyError
  | typeError : String → PyError
  deriving DecidableEq

/-- Key lookup in an insertion-ordered dictionary (Python `d[k]` / `k in d`). -/
def dictLookup {β : Type} (k : String) : List (String × β) → Option β
  | [] => none
  | (k2, v) :: rest => if k2 = k then some v else dictLookup k rest

/-- Python dictionary assignment `d[k] = v`: replaces the value in place when
the key exists (keeping its position), appends at the end otherwise. -/
def dictSet : Config → String → Val → Config
  | [], k, v => [(k, v)]
  | (k2, v2) :: rest, k, v =>
    if k2 = k then (k, v) :: rest else (k2, v2) :: dictSet rest k v

/-- Python `config.get(k, d)`. -/
def cfgGetD (cfg : Config) (k : String) (d : Val) : Val :=
  (dictLookup k cfg).getD d

/-- Python `config[k]`: raises KeyError when the key is absent. -/
def cfgGetE (cfg : Config) (k : String) : Except PyError Val :=
  match dictLookup k cfg with
  | some v => Except.ok v
  | none => Except.error (PyError.keyError k)

/-- Python `x is None`. -/
def isNull : Val → Bool
  | Val.null => true
  | _ => false

/-- Python truthiness of a value. -/
def pyTruthy : Val → Bool
  | Val.null => false
  | Val.bool b => b
  | Val.int n => decide (n ≠ 0)
  | Val.str s => !s.isEmpty
  | Val.list vs => !vs.isEmpty
  | Val.dict kvs => !kvs.isEmpty

/-- Rendering of a value inside an f-string message.  Exact for strings,
abbreviated for containers; the configuration claims only exercise strings. -/
def valText : Val → String
  | Val.null => "None"
  | Val.bool true => "True"
  | Val.bool false => "False"
  | Val.int n => toString n
  | Val.str s => s
  | Val.list _ => "<list>"
  | Val.dict _ => "<dict>"

/-- Python iteration over a value (`for x in v`): lists yield their elements,
strings their one-character substrings, dictionaries their keys. -/
def pyIter : Val → Except PyError (List Val)
  | Val.list vs => Except.ok vs
  | Val.str s => Except.ok (s.toList.map (fun ch => Val.str (String.singleton ch)))
  | Val.dict kvs => Except.ok (kvs.map (fun kv => Val.str kv.1))
  | _ => Except.error (PyError.typeError "object is not iterable")

/-- Using a value as the right operand of string concatenation (`s + v`):
a TypeError unless the value is a string. -/
def asStr : Val → Except PyError String
  | Val.str s => Except.ok s
  | _ => Except.error (PyError.typeError "can only concatenate str to str")

/-- Python item assignment `v[k] = x` on a value expected to be a dictionary
(run_vasp_custodian.py line 88): TypeError on None and on any non-dictionary. -/
def setItem : Val → String → Val → Except PyError Config
  | Val.dict kvs, k, v => Except.ok (dictSet kvs k v)
  | _, _, _ => Except.error (PyError.typeError "object does not support item assignment")

/-- Keyword-argument unpacking `f(**v)`: TypeError unless a dictionary. -/
def asKwargs : Val → Except PyError Config
  | Val.dict kvs => Except.ok kvs
  | _ => Except.error (PyError.typeError "argument after ** must be a mapping")

/-! ## Settings loading (run_vasp_custodian.py lines 31 to 35) -/

/-- Lines 31 to 34: resolve the settings path from the environment, raising
EnvironmentError when VASP_CUSTODIAN_SETTINGS is unset. -/
def settings_path (env : String → Option String) : Except PyError String :=
  match env "VASP_CUSTODIAN_SETTINGS" with
  | some p => Except.ok p
  | none =>
    Except.error (PyError.environmentError "Missing environment variable VASP_CUSTODIAN_SETTINGS.")

/-- Line 35: `config = yaml.safe_load(open(settings_path))`, with the composite
of opening and YAML-parsing a file taken as the parameter yamlLoadFile. -/
def load_config (env : String → Option String) (yamlLoadFile : String → Config) :
    Except PyError Config :=
  (settings_path env).map yamlLoadFile

/-! ## Environment substitution (run_vasp_custodian.py lines 38 to 43) -/

/-- The body of the substitution loop for one value:
`if isinstance(v, str) and v[0] == "$"` (indexing raises IndexError on the
empty string), then `config[k] = os.environ[v[1:]]` or EnvironmentError. -/
def subst_value (env : String → Option String) (v : Val) : Except PyError Val :=
  match v with
  | Val.str s =>
    if s.isEmpty then Except.error (PyError.indexError "string index out of range")
    else if s.take 1 = "$" then
      match env (s.drop 1) with
      | some w => Except.ok (Val.str w)
      | none =>
        Except.error (PyError.environmentError ("Missing environment variable " ++ s.drop 1))
    else Except.ok v
  | _ => Except.ok v

/-- The substitution loop over the whole configuration, stopping at the first
raised exception. -/
def subst_config (env : String → Option String) : Config → Except PyError Config
  | [] => Except.ok []
  | (k, v) :: rest => do
    let v2 ← subst_value env v
    let rest2 ← subst_config env rest
    Except.ok ((k, v2) :: rest2)

/-- Follows the words of the specification, for comparison with subst_value:
a string value beginning with a dollar sign is replaced from the environment
(EnvironmentError when unset); every other entry, the empty string included,
is left unchanged. -/
def subst_value_spec (env : String → Option String) (v : Val) : Except PyError Val :=
  match v with
  | Val.str s =>
    if s.take 1 = "$" then
      match env (s.drop 1) with
      | some w => Except.ok (Val.str w)
      | none =>
        Except.error (PyError.environmentError ("Missing environment variable " ++ s.drop 1))
    else Except.ok v
  | _ => Except.ok v

/-- The specification-side substitution pass over the whole configuration. -/
def subst_config_spec (env : String → Option String) : Config → Except PyError Config
  | [] => Except.ok []
  | (k, v) :: rest => do
    let v2 ← subst_value_spec env v
    let rest2 ← subst_config_spec env rest
    Except.ok ((k, v2) :: rest2)

/-! ## Handlers and validators (run_vasp_custodian.py lines 45 to 76) -/

/-- The custodian handler instances the script can construct.  Constructor
arguments record the configuration values passed at construction. -/
inductive Handler : Type where
  | vaspErrorHandler : Val → Handler
  | frozenJobErrorHandler : Handler
  | incorrectSmearingHandler : Handler
  | largeSigmaHandler : Handler
  | meshSymmetryErrorHandler : Handler
  | nonConvergingErrorHandler : Handler
  | positiveEnergyErrorHandler : Handler
  | potimErrorHandler : Handler
  | stdErrHandler : Handler
  | unconvergedErrorHandler : Handler
  | walltimeHandler : Option Val → Handler
  | scanMetalHandler : Handler

/-- The custodian validator instances the script can construct. -/
inductive Validator : Type where
  | vaspFilesValidator : Validator
  | vasprunXMLValidator : Validator

/-- Lines 47 to 60: the name-to-instance handler table, in source order.
VaspErrorHandler receives `vtst_fixes=config["vtst_swaps"]`; the table entry
for WalltimeHandler is the default-constructed instance. -/
def handlers_dict (vtst_swaps : Val) : List (String × Handler) :=
  [("VaspErrorHandler", Handler.vaspErrorHandler vtst_swaps),
   ("FrozenJobErrorHandler", Handler.frozenJobErrorHandler),
   ("IncorrectSmearingHandler", Handler.incorrectSmearingHandler),
   ("LargeSigmaHandler", Handler.largeSigmaHandler),
   ("MeshSymmetryErrorHandler", Handler.meshSymmetryErrorHandler),
   ("NonConvergingErrorHandler", Handler.nonConvergingErrorHandler),
   ("PositiveEnergyErrorHandler", Handler.positiveEnergyErrorHandler),
   ("PotimErrorHandler", Handler.potimErrorHandler),
   ("StdErrHandler", Handler.stdErrHandler),
   ("UnconvergedErrorHandler", Handler.unconvergedErrorHandler),
   ("WalltimeHandler", Handler.walltimeHandler none),
   ("ScanMetalHandler", Handler.scanMetalHandler)]

/-- Lines 61 to 64: the name-to-instance validator table. -/
def validators_dict : List (String × Validator) :=
  [("VaspFilesValidator", Validator.vaspFilesValidator),
   ("VasprunXMLValidator", Validator.vasprunXMLValidator)]

/-- Lines 66 to 70: the handler selection loop, raising ValueError at the
first flag that is not a key of the handler table. -/
def select_handlers (hdict : List (String × Handler)) : List Val → Except PyError (List Handler)
  | [] => Except.ok []
  | flag :: rest =>
    match flag with
    | Val.str s =>
      match dictLookup s hdict with
      | some h => (select_handlers hdict rest).map (fun hs => h :: hs)
      | none => Except.error (PyError.valueError ("Unknown VASP error handler: " ++ s))
    | other => Except.error (PyError.valueError ("Unknown VASP error handler: " ++ valText other))

/-- Lines 72 to 76: the validator selection loop. -/
def select_validators : List Val → Except PyError (List Validator)
  | [] => Except.ok []
  | flag :: rest =>
    match flag with
    | Val.str s =>
      match dictLookup s validators_dict with
      | some v => (select_validators rest).map (fun vs => v :: vs)
      | none => Except.error (PyError.valueError ("Unknown VASP validator: " ++ s))
    | other => Except.error (PyError.valueError ("Unknown VASP validator: " ++ valText other))

/-- A handler name the script recognizes (a key of the handler table). -/
def is_known_handler (n : String) : Bool :=
  (dictLookup n (handlers_dict Val.null)).isSome

/-- A validator name the script recognizes. -/
def is_known_validator (n : String) : Bool :=
  (dictLookup n validators_dict).isSome

/-- The message of the ValueError the selection loops raise: the first
unrecognized handler name wins, then the first unrecognized validator name. -/
def first_unknown_flag_message (hnames vnames : List String) : Option String :=
  match hnames.find? (fun n => !(is_known_handler n)) with
  | some n => some ("Unknown VASP error handler: " ++ n)
  | none =>
    match vnames.find? (fun n => !(is_known_validator n)) with
    | some n => some ("Unknown VASP validator: " ++ n)
    | none => none

/-! ## The run itself (run_vasp_custodian.py lines 78 to 128) -/

/-- The arguments of the one `VaspJob(split_vasp_cmd, **vasp_job_kwargs)`
construction (line 106). -/
structure VaspJobCall : Type where
  cmd : List String
  kwargs : Config

/-- The arguments of the one `Custodian(...)` construction (lines 111 to 118). -/
structure CustodianCall : Type where
  handlers : List Handler
  jobs : List VaspJobCall
  validators : List Validator
  max_errors : Val
  scratch_dir : Val
  custodian_kwargs : Config

/-- What the script hands to the outside world on a successful run: either a
single Custodian construction whose run method is invoked once (line 121), or
a single shell subprocess invocation with its return code (line 127). -/
inductive Outcome : Type where
  | custodianRun : CustodianCall → Outcome
  | subprocessRun : String → Int → Outcome

/-- Lines 45 to 128 of run_vasp_custodian.py, statement by statement, over an
already loaded and substituted configuration.  The parameters ev, sp and sub
stand for os.path.expandvars, shlex.split and subprocess.call. -/
def run_vasp_custodian (ev : String → String) (sp : String → List String)
    (sub : String → Int) (config : Config) : Except PyError Outcome := do
  let vtst_swaps ← cfgGetE config "vtst_swaps"
  let hdict := handlers_dict vtst_swaps
  let handler_flags ← pyIter (← cfgGetE config "handlers")
  let handlers ← select_handlers hdict handler_flags
  let validator_flags ← pyIter (← cfgGetE config "validators")
  let validators ← select_validators validator_flags
  let custodian_enabled := cfgGetD config "custodian_enabled" (Val.bool true)
  let parallel_cmd := (← asStr (cfgGetD config "vasp_parallel_cmd" (Val.str ""))) ++ " "
  let vasp_cmd := parallel_cmd ++ (← asStr (cfgGetD config "vasp_cmd" (Val.str "vasp_std")))
  let vasp_gamma_cmd :=
    parallel_cmd ++ (← asStr (cfgGetD config "vasp_gamma_cmd" (Val.str "vasp_gam")))
  let max_errors := cfgGetD config "max_errors" (Val.int 5)
  let wall_time := cfgGetD config "custodian_wall_time" Val.null
  let scratch_dir := cfgGetD config "scratch_dir" Val.null
  let vasp_job_kwargs0 := cfgGetD config "vasp_job_kwargs" Val.null
  let custodian_kwargs0 := cfgGetD config "custodian_kwargs" Val.null
  let vasp_job_kwargs1 ← setItem vasp_job_kwargs0 "auto_npar" (Val.bool false)
  let custodian_kwargs1 := if isNull custodian_kwargs0 then Val.dict [] else custodian_kwargs0
  let vasp_cmd_expanded := ev vasp_cmd
  let vasp_gamma_cmd_expanded := ev vasp_gamma_cmd
  let split_vasp_cmd := sp vasp_cmd_expanded
  let split_vasp_gamma_cmd := sp vasp_gamma_cmd_expanded
  let vasp_job_kwargs2 :=
    if (dictLookup "auto_npar" vasp_job_kwargs1).isNone then
      dictSet vasp_job_kwargs1 "auto_npar" (Val.bool false)
    else vasp_job_kwargs1
  let vasp_job_kwargs3 :=
    dictSet vasp_job_kwargs2 "gamma_vasp_cmd" (Val.list (split_vasp_gamma_cmd.map Val.str))
  if pyTruthy custodian_enabled then
    let jobs := [VaspJobCall.mk split_vasp_cmd vasp_job_kwargs3]
    let handlers2 :=
      if isNull wall_time then handlers
      else handlers ++ [Handler.walltimeHandler (some wall_time)]
    let custodian_kwargs ← asKwargs custodian_kwargs1
    Except.ok (Outcome.custodianRun
      (CustodianCall.mk handlers2 jobs validators max_errors scratch_dir custodian_kwargs))
  else
    Except.ok (Outcome.subprocessRun vasp_cmd_expanded (sub vasp_cmd_expanded))

/-! ## MACE core recipes (src/quacc/recipes/mace/core.py) -/

/-- The keyword arguments of one `mace_off(...)` calculator construction. -/
structure MaceOffCall : Type where
  kwargs : Config

/-- Modelled from the spec: `recursive_dict_merge` (quacc.utils.dicts) is quacc
code not included under src/; per its use in the recipes it merges calculator
default kwargs with user-supplied custom kwargs, user values taking
precedence.  Modelled as a right-biased dictionary update. -/
def recursive_dict_merge (defaults kwargs : Config) : Config :=
  kwargs.foldl (fun acc kv => dictSet acc kv.1 kv.2) defaults

/-- static_job lines 69 to 76: empty calculator defaults and
`mace_off(default_dtype="float64", **calc_flags)` (a TypeError when calc_flags
also carries default_dtype). -/
def static_job_calc (calc_kwargs : Config) : Except PyError MaceOffCall :=
  let calc_defaults : Config := []
  let calc_flags := recursive_dict_merge calc_defaults calc_kwargs
  if (dictLookup "default_dtype" calc_flags).isSome then
    Except.error (PyError.typeError "mace_off got multiple values for keyword argument")
  else Except.ok (MaceOffCall.mk (("default_dtype", Val.str "float64") :: calc_flags))

/-- relax_job lines 116 to 126: the calculator construction is identical to
static_job. -/
def relax_job_calc (calc_kwargs : Config) : Except PyError MaceOffCall :=
  let calc_defaults : Config := []
  let calc_flags := recursive_dict_merge calc_defaults calc_kwargs
  if (dictLookup "default_dtype" calc_flags).isSome then
    Except.error (PyError.typeError "mace_off got multiple values for keyword argument")
  else Except.ok (MaceOffCall.mk (("default_dtype", Val.str "float64") :: calc_flags))

/-- freq_job lines 164 to 172: defaults carry hess_method, and the explicit
keyword is default_dtypes, not default_dtype. -/
def freq_job_calc (calc_kwargs : Config) : Except PyError MaceOffCall :=
  let calc_defaults : Config := [("hess_method", Val.str "autograd")]
  let calc_flags := recursive_dict_merge calc_defaults calc_kwargs
  if (dictLookup "default_dtypes" calc_flags).isSome then
    Except.error (PyError.typeError "mace_off got multiple values for keyword argument")
  else Except.ok (MaceOffCall.mk (("default_dtypes", Val.str "float64") :: calc_flags))

/-! ## EMT phonon flow (src/quacc/recipes/emt/phonons.py) -/

/-- A functools-style partially applied job: the function with the keyword
arguments bound to it. -/
structure AppliedJob : Type where
  func : String
  kwargs : Config

/-- The arguments of one call of the common phonon flow. -/
structure PhononFlowCall (α : Type) : Type where
  atoms : α
  force_job : AppliedJob
  supercell_matrix : List (List Int)
  atom_disp : ℚ
  t_step : ℚ
  t_min : ℚ
  t_max : ℚ
  additional_fields : Config

/-- Modelled from the spec: `phonon_flow_` (quacc.recipes.common.phonons) is
quacc code not included under src/; modelled as an opaque record of the call
it receives. -/
def phonon_flow_common {α : Type} (atoms : α) (force_job : AppliedJob)
    (supercell_matrix : List (List Int)) (atom_disp t_step t_min t_max : ℚ)
    (additional_fields : Config) : PhononFlowCall α :=
  PhononFlowCall.mk atoms force_job supercell_matrix atom_disp t_step t_min t_max
    additional_fields

/-- Python `static_job_kwargs or {}`: a falsy value (None or the empty
dictionary) becomes the empty dictionary. -/
def pyOrDict : Option Config → Config
  | none => []
  | some d => if d.isEmpty then [] else d

/-- The default supercell matrix of the phonon_flow signature (line 23). -/
def phonon_flow_default_supercell : List (List Int) :=
  [[2, 0, 0], [0, 2, 0], [0, 0, 2]]

/-- phonon_flow lines 20 to 67: delegate to the common phonon flow with the
force function `functools partial of static_job with static_job_kwargs` and
additional_fields naming the flow. -/
def phonon_flow {α : Type} (atoms : α) (supercell_matrix : List (List Int))
    (atom_disp t_step t_min t_max : ℚ) (static_job_kwargs : Option Config) :
    PhononFlowCall α :=
  let sjk := pyOrDict static_job_kwargs
  phonon_flow_common atoms (AppliedJob.mk "static_job" sjk) supercell_matrix
    atom_disp t_step t_min t_max [("name", Val.str "EMT Phonons")]

/-- Splitting a list of characters on spaces, structurally. -/
def splitSpacesAux : List Char → List Char → List String
  | [], acc => if acc.isEmpty then [] else [String.mk acc]
  | ch :: rest, acc =>
    if ch = ' ' then
      if acc.isEmpty then splitSpacesAux rest [] else String.mk acc :: splitSpacesAux rest []
    else splitSpacesAux rest (acc ++ [ch])

/-- A simple whitespace splitter: a concrete, computable stand-in for
shlex.split when the theorems about the script are instantiated. -/
def splitSpaces (s : String) : List String := splitSpacesAux s.toList []

/-! ## Dictionary lemmas -/

theorem dictLookup_dictSet_self (d : Config) (k : String) (v : Val) :
    dictLookup k (dictSet d k v) = some v := by
  induction d with
  | nil => simp [dictSet, dictLookup]
  | cons kv rest ih =>
    obtain ⟨k2, v2⟩ := kv
    by_cases h : k2 = k
    · simp [dictSet, h, dictLookup]
    · simp [dictSet, h, dictLookup, ih]

theorem dictLookup_dictSet_ne (d : Config) (k2 k : String) (v : Val) (h : k2 ≠ k) :
    dictLookup k2 (dictSet d k v) = dictLookup k2 d := by
  have hne : ¬ k = k2 := fun hh => h hh.symm
  induction d with
  | nil => simp [dictSet, dictLookup, hne]
  | cons kv rest ih =>
    obtain ⟨a, b⟩ := kv
    by_cases ha : a = k
    · subst ha
      simp [dictSet, dictLookup, hne]
    · simp [dictSet, ha, dictLookup, ih]

theorem dictLookup_merge_none (kw d : Config) (k : String)
    (hd : dictLookup k d = none) (hk : dictLookup k kw = none) :
    dictLookup k (recursive_dict_merge d kw) = none := by
  induction kw generalizing d with
  | nil => simpa [recursive_dict_merge] using hd
  | cons kv rest ih =>
    obtain ⟨a, b⟩ := kv
    by_cases ha : a = k
    · simp [dictLookup, ha] at hk
    · simp only [dictLookup, if_neg ha] at hk
      have hd2 : dictLookup k (dictSet d a b) = none := by
        rw [dictLookup_dictSet_ne d k a b (fun hh => ha hh.symm)]
        exact hd
      simpa [recursive_dict_merge, List.foldl] using ih (dictSet d a b) hd2 hk

theorem dictLookup_isSome_congr {β γ : Type} (l1 : List (String × β)) (l2 : List (String × γ))
    (h : l1.map Prod.fst = l2.map Prod.fst) (k : String) :
    (dictLookup k l1).isSome = (dictLookup k l2).isSome := by
  induction l1 generalizing l2 with
  | nil =>
    have hl2 : l2 = [] := by
      have := h.symm
      simpa [List.map_eq_nil_iff] using this
    subst hl2
    rfl
  | cons kv rest ih =>
    obtain ⟨a, b⟩ := kv
    cases l2 with
    | nil => simp at h
    | cons kv2 rest2 =>
      obtain ⟨a2, c⟩ := kv2
      simp only [List.map_cons, List.cons.injEq] at h
      obtain ⟨hfst, hrest⟩ := h
      subst hfst
      by_cases hk : a = k
      · simp [dictLookup, hk]
      · simp [dictLookup, hk, ih rest2 hrest]

/-! ## Selection-loop lemmas -/

theorem is_known_handler_eq (vtst : Val) (n : String) :
    (dictLookup n (handlers_dict vtst)).isSome = is_known_handler n :=
  dictLookup_isSome_congr (handlers_dict vtst) (handlers_dict Val.null) rfl n

theorem select_handlers_all_known (vtst : Val) (names : List String)
    (h : ∀ n ∈ names, is_known_handler n = true) :
    select_handlers (handlers_dict vtst) (names.map Val.str) =
      Except.ok (names.filterMap (fun n => dictLookup n (handlers_dict vtst))) := by
  induction names with
  | nil => simp [select_handlers]
  | cons n t ih =>
    have hk : (dictLookup n (handlers_dict vtst)).isSome = true := by
      rw [is_known_handler_eq]
      exact h n (by simp)
    obtain ⟨hh, hhh⟩ := Option.isSome_iff_exists.mp hk
    have iht := ih (fun m hm => h m (List.mem_cons_of_mem n hm))
    simp [select_handlers, hhh, iht, Except.map, List.filterMap_cons]

theorem select_validators_all_known (names : List String)
    (h : ∀ n ∈ names, is_known_validator n = true) :
    select_validators (names.map Val.str) =
      Except.ok (names.filterMap (fun n => dictLookup n validators_dict)) := by
  induction names with
  | nil => simp [select_validators]
  | cons n t ih =>
    have hk : (dictLookup n validators_dict).isSome = true := h n (by simp)
    obtain ⟨vv, hvv⟩ := Option.isSome_iff_exists.mp hk
    have iht := ih (fun m hm => h m (List.mem_cons_of_mem n hm))
    simp [select_validators, hvv, iht, Except.map, List.filterMap_cons]

theorem select_handlers_first_unknown (vtst : Val) (names : List String) (n : String)
    (h : names.find? (fun m => !(is_known_handler m)) = some n) :
    select_handlers (handlers_dict vtst) (names.map Val.str) =
      Except.error (PyError.valueError ("Unknown VASP error handler: " ++ n)) := by
  induction names with
  | nil => simp [List.find?] at h
  | cons m t ih =>
    by_cases hkm : is_known_handler m = true
    · have hfind : t.find? (fun m2 => !(is_known_handler m2)) = some n := by
        simpa [List.find?_cons, hkm] using h
      have hk : (dictLookup m (handlers_dict vtst)).isSome = true := by
        rw [is_known_handler_eq]; exact hkm
      obtain ⟨hh, hhh⟩ := Option.isSome_iff_exists.mp hk
      simp [select_handlers, hhh, ih hfind, Except.map]
    · have hmn : m = n := by
        simp only [List.find?_cons, Bool.not_eq_true] at h
        rw [Bool.not_eq_true] at hkm
        simp [hkm] at h
        exact h
      have hnone : dictLookup m (handlers_dict vtst) = none := by
        have := is_known_handler_eq vtst m
        rw [Bool.not_eq_true] at hkm
        rw [hkm] at this
        exact Option.not_isSome_iff_eq_none.mp (by simp [this])
      subst hmn
      simp [select_handlers, hnone]

theorem select_validators_first_unknown (names : List String) (n : String)
    (h : names.find? (fun m => !(is_known_validator m)) = some n) :
    select_validators (names.map Val.str) =
      Except.error (PyError.valueError ("Unknown VASP validator: " ++ n)) := by
  induction names with
  | nil => simp [List.find?] at h
  | cons m t ih =>
    by_cases hkm : is_known_validator m = true
    · have hfind : t.find? (fun m2 => !(is_known_validator m2)) = some n := by
        simpa [List.find?_cons, hkm] using h
      obtain ⟨vv, hvv⟩ := Option.isSome_iff_exists.mp hkm
      simp [select_validators, hvv, ih hfind, Except.map]
    · have hmn : m = n := by
        simp only [List.find?_cons, Bool.not_eq_true] at h
        rw [Bool.not_eq_true] at hkm
        simp [hkm] at h
        exact h
      have hnone : dictLookup m validators_dict = none := by
        rw [Bool.not_eq_true] at hkm
        exact Option.not_isSome_iff_eq_none.mp (by simp [is_known_validator] at hkm; simp [hkm])
      subst hmn
      simp [select_validators, hnone]

theorem isNull_eq_true (v : Val) : isNull v = true ↔ v = Val.null := by
  cases v <;> simp [isNull]

/-! ## C1: the environment-substitution pass -/

theorem subst_value_eq_spec (env : String → Option String) (v : Val)
    (h : ∀ s, v = Val.str s → s ≠ "") :
    subst_value env v = subst_value_spec env v := by
  cases v with
  | str s =>
    have hs : s ≠ "" := h s rfl
    have hempty : s.isEmpty = false := by
      rw [Bool.eq_false_iff]
      intro hc
      exact hs ((String.isEmpty_iff s).mp hc)
    simp [subst_value, subst_value_spec, hempty]
  | null => rfl
  | bool b => rfl
  | int n => rfl
  | list l => rfl
  | dict d => rfl

/-- C1 (counterexample): on a configuration with an empty-string value the
substitution loop raises IndexError (the code indexes v[0]), while the claim
says such an entry is left unchanged (as the spec-side pass does). -/
theorem subst_config_empty_string_counterexample :
    subst_config (fun _ => none) [("k", Val.str "")] =
      Except.error (PyError.indexError "string index out of range") ∧
    subst_config_spec (fun _ => none) [("k", Val.str "")] =
      Except.ok [("k", Val.str "")] :=
  ⟨rfl, rfl⟩

/-- C1 (amended): on every configuration whose string values are all
non-empty, the substitution pass maps each top-level entry exactly as the
claim describes: a string beginning with a dollar sign is replaced by the
named environment variable (EnvironmentError naming it when unset), and every
other entry is left unchanged. -/
theorem subst_config_matches_spec_on_nonempty_strings (env : String → Option String)
    (cfg : Config) (h : ∀ kv ∈ cfg, ∀ s, kv.2 = Val.str s → s ≠ "") :
    subst_config env cfg = subst_config_spec env cfg := by
  induction cfg with
  | nil => rfl
  | cons kv rest ih =>
    obtain ⟨k, v⟩ := kv
    have hv := subst_value_eq_spec env v (fun s hs => h (k, v) (by simp) s (by simpa using hs))
    have hrest := ih (fun kv2 hkv2 => h kv2 (List.mem_cons_of_mem _ hkv2))
    simp [subst_config, subst_config_spec, hv, hrest]

/-- C1 (witness): a concrete configuration with a dollar-string, an integer
and a plain string, substituted against a concrete environment. -/
theorem subst_config_matches_spec_witness :
    (∀ kv ∈ ([("a", Val.str "$HOME"), ("b", Val.int 3), ("c", Val.str "plain")] : Config),
      ∀ s, kv.2 = Val.str s → s ≠ "") ∧
    subst_config (fun n => if n = "HOME" then some "/root" else none)
        [("a", Val.str "$HOME"), ("b", Val.int 3), ("c", Val.str "plain")] =
      Except.ok [("a", Val.str "/root"), ("b", Val.int 3), ("c", Val.str "plain")] := by
  have hside : ∀ kv ∈ ([("a", Val.str "$HOME"), ("b", Val.int 3),
      ("c", Val.str "plain")] : Config), ∀ s, kv.2 = Val.str s → s ≠ "" := by
    intro kv hkv s hs hs0
    subst hs0
    simp at hkv
    rcases hkv with rfl | rfl | rfl <;> simp at hs
  refine ⟨hside, ?_⟩
  rw [subst_config_matches_spec_on_nonempty_strings
    (fun n => if n = "HOME" then some "/root" else none) _ hside]
  rfl

/-! ## C3: the script crashes before Custodian.run when vasp_job_kwargs is absent -/

/-- C3 (code bug): a configuration with recognized (empty) handler and
validator lists, vtst_swaps present and custodian_enabled absent, but no
vasp_job_kwargs entry: line 88 of the script assigns into None before the
None guard of line 91, so the script raises TypeError and never constructs a
VaspJob nor invokes Custodian.run. -/
theorem run_vasp_custodian_missing_vasp_job_kwargs_type_error :
    run_vasp_custodian id (fun s => [s]) (fun _ => 0)
      [("vtst_swaps", Val.bool false), ("handlers", Val.list []),
       ("validators", Val.list [])] =
    Except.error (PyError.typeError "object does not support item assignment") :=
  rfl

/-! ## C6: settings-file resolution -/

/-- C6: when VASP_CUSTODIAN_SETTINGS is unset the script raises
EnvironmentError without touching any file (the result is the same for every
file loader); otherwise the configuration is the YAML parse of the file at
the path named by the variable. -/
theorem load_config_env_behavior (env : String → Option String)
    (yamlLoadFile : String → Config) :
    (env "VASP_CUSTODIAN_SETTINGS" = none →
      load_config env yamlLoadFile =
        Except.error
          (PyError.environmentError "Missing environment variable VASP_CUSTODIAN_SETTINGS.")) ∧
    (∀ p, env "VASP_CUSTODIAN_SETTINGS" = some p →
      load_config env yamlLoadFile = Except.ok (yamlLoadFile p)) := by
  constructor
  · intro h
    simp [load_config, settings_path, h, Except.map]
  · intro p h
    simp [load_config, settings_path, h, Except.map]

/-- C6 (witness): an unset environment and a set environment, each with a
concrete file loader. -/
theorem load_config_env_behavior_witness :
    load_config (fun _ => none) (fun _ => []) =
      Except.error
        (PyError.environmentError "Missing environment variable VASP_CUSTODIAN_SETTINGS.") ∧
    load_config (fun _ => some "vasp_custodian_settings.yaml")
        (fun _ => [("handlers", Val.list [])]) =
      Except.ok [("handlers", Val.list [])] :=
  ⟨(load_config_env_behavior (fun _ => none) (fun _ => [])).1 rfl,
   (load_config_env_behavior (fun _ => some "vasp_custodian_settings.yaml")
      (fun _ => [("handlers", Val.list [])])).2 "vasp_custodian_settings.yaml" rfl⟩

/-! ## C7: the EMT phonon flow delegates to the common phonon flow -/

/-- C7: phonon_flow returns the common phonon flow called with the given
atoms, the force function static_job partially applied with static_job_kwargs
(the empty dictionary when None), the supercell matrix, displacement and
temperature parameters passed through unchanged, and additional_fields naming
the flow EMT Phonons; and the declared default supercell matrix is the
2x2x2 diagonal matrix. -/
theorem phonon_flow_delegates_to_common :
    ∀ (α : Type) (atoms : α) (supercell_matrix : List (List Int))
      (atom_disp t_step t_min t_max : ℚ) (static_job_kwargs : Option Config),
      phonon_flow atoms supercell_matrix atom_disp t_step t_min t_max static_job_kwargs =
        phonon_flow_common atoms (AppliedJob.mk "static_job" (static_job_kwargs.getD []))
          supercell_matrix atom_disp t_step t_min t_max
          [("name", Val.str "EMT Phonons")] ∧
      (∀ (i j : Fin 3),
        (phonon_flow_default_supercell.getD i.val []).getD j.val 0 =
          if i = j then 2 else 0) := by
  intro α atoms sm ad ts t0 t1 sjk
  constructor
  · cases sjk with
    | none => rfl
    | some d =>
      by_cases hd : d.isEmpty = true
      · have hnil : d = [] := List.isEmpty_iff.mp hd
        subst hnil
        rfl
      · simp [phonon_flow, phonon_flow_common, pyOrDict, hd]
  · decide

/-! ## C10: calculator dtype keywords in the MACE recipes -/

/-- C10 (counterexample): when the caller passes default_dtype in
calc_kwargs, the calculator constructed by freq_job does receive the
default_dtype keyword, so the claim that it is never given that keyword
fails. -/
theorem freq_job_default_dtype_passthrough_counterexample :
    (freq_job_calc [("default_dtype", Val.str "float32")]).map
        (fun cc => dictLookup "default_dtype" cc.kwargs) =
      Except.ok (some (Val.str "float32")) :=
  rfl

/-- C10 (amended): static_job and relax_job hand the calculator
default_dtype set to float64; freq_job hands it default_dtypes set to
float64 instead, and passes no default_dtype of its own: the calculator used
by freq_job receives default_dtype only when the caller puts it in
calc_kwargs. -/
theorem mace_calculator_dtype_keywords (calc_kwargs : Config) :
    (∀ cc, static_job_calc calc_kwargs = Except.ok cc →
      dictLookup "default_dtype" cc.kwargs = some (Val.str "float64")) ∧
    (∀ cc, relax_job_calc calc_kwargs = Except.ok cc →
      dictLookup "default_dtype" cc.kwargs = some (Val.str "float64")) ∧
    (∀ cc, freq_job_calc calc_kwargs = Except.ok cc →
      dictLookup "default_dtypes" cc.kwargs = some (Val.str "float64")) ∧
    (dictLookup "default_dtype" calc_kwargs = none →
      ∀ cc, freq_job_calc calc_kwargs = Except.ok cc →
        dictLookup "default_dtype" cc.kwargs = none) := by
  refine ⟨?_, ?_, ?_, ?_⟩
  · intro cc h
    simp only [static_job_calc] at h
    split at h
    · simp at h
    · cases h
      simp [dictLookup]
  · intro cc h
    simp only [relax_job_calc] at h
    split at h
    · simp at h
    · cases h
      simp [dictLookup]
  · intro cc h
    simp only [freq_job_calc] at h
    split at h
    · simp at h
    · cases h
      simp [dictLookup]
  · intro hnone cc h
    simp only [freq_job_calc] at h
    split at h
    · simp at h
    · cases h
      have hflags :
          dictLookup "default_dtype"
            (recursive_dict_merge [("hess_method", Val.str "autograd")] calc_kwargs) = none :=
        dictLookup_merge_none calc_kwargs [("hess_method", Val.str "autograd")]
          "default_dtype" (by simp [dictLookup]) hnone
      simp [dictLookup, hflags]

/-- C10 (witness): with empty calc_kwargs, static_job passes default_dtype
float64 and freq_job passes no default_dtype at all. -/
theorem mace_calculator_dtype_keywords_witness :
    dictLookup "default_dtype" ([] : Config) = none ∧
    dictLookup "default_dtype"
        (MaceOffCall.kwargs (MaceOffCall.mk [("default_dtype", Val.str "float64")])) =
      some (Val.str "float64") ∧
    dictLookup "default_dtype"
        (MaceOffCall.kwargs (MaceOffCall.mk
          [("default_dtypes", Val.str "float64"), ("hess_method", Val.str "autograd")])) =
      none := by
  obtain ⟨h1, h2, h3, h4⟩ := mace_calculator_dtype_keywords []
  exact ⟨rfl, h1 (MaceOffCall.mk [("default_dtype", Val.str "float64")]) rfl,
    h4 rfl (MaceOffCall.mk
      [("default_dtypes", Val.str "float64"), ("hess_method", Val.str "autograd")]) rfl⟩

/-! ## The custodian-enabled branch: its one Custodian construction -/

theorem run_vasp_custodian_custodian_shape
    (ev : String → String) (sp : String → List String) (sub : String → Int)
    (cfg : Config) (vtst : Val) (hnames vnames : List String) (kvs : Config)
    (p c g : String)
    (h1 : dictLookup "vtst_swaps" cfg = some vtst)
    (h2 : dictLookup "handlers" cfg = some (Val.list (hnames.map Val.str)))
    (h3 : ∀ n ∈ hnames, is_known_handler n = true)
    (h4 : dictLookup "validators" cfg = some (Val.list (vnames.map Val.str)))
    (h5 : ∀ n ∈ vnames, is_known_validator n = true)
    (h6 : pyTruthy (cfgGetD cfg "custodian_enabled" (Val.bool true)) = true)
    (h7 : cfgGetD cfg "vasp_parallel_cmd" (Val.str "") = Val.str p)
    (h8 : cfgGetD cfg "vasp_cmd" (Val.str "vasp_std") = Val.str c)
    (h9 : cfgGetD cfg "vasp_gamma_cmd" (Val.str "vasp_gam") = Val.str g)
    (h10 : cfgGetD cfg "vasp_job_kwargs" Val.null = Val.dict kvs)
    (h11 : cfgGetD cfg "custodian_kwargs" Val.null = Val.null) :
    run_vasp_custodian ev sp sub cfg = Except.ok (Outcome.custodianRun
      (CustodianCall.mk
        (if isNull (cfgGetD cfg "custodian_wall_time" Val.null) then
          hnames.filterMap (fun n => dictLookup n (handlers_dict vtst))
        else
          hnames.filterMap (fun n => dictLookup n (handlers_dict vtst)) ++
            [Handler.walltimeHandler (some (cfgGetD cfg "custodian_wall_time" Val.null))])
        [VaspJobCall.mk (sp (ev (p ++ " " ++ c)))
          (dictSet (dictSet kvs "auto_npar" (Val.bool false)) "gamma_vasp_cmd"
            (Val.list ((sp (ev (p ++ " " ++ g))).map Val.str)))]
        (vnames.filterMap (fun n => dictLookup n validators_dict))
        (cfgGetD cfg "max_errors" (Val.int 5))
        (cfgGetD cfg "scratch_dir" Val.null)
        [])) := by
  have hsel := select_handlers_all_known vtst hnames h3
  have vsel := select_validators_all_known vnames h5
  rw [run_vasp_custodian]
  simp only [cfgGetE, h1, h2, h4, h6, h7, h8, h9, h10, h11, pyIter, hsel, vsel,
    asStr, setItem, asKwargs, isNull, Bind.bind, Except.bind, if_true,
    dictLookup_dictSet_self, Option.isNone_some, Bool.false_eq_true, if_false,
    String.append_assoc]

/-! ## C2: unrecognized handler or validator names -/

/-- C2 (counterexample): a configuration with an unrecognized handler name
but no vtst_swaps entry: the script raises KeyError while building the
handler table (line 48), not the ValueError the claim promises for every
configuration. -/
theorem unknown_handler_without_vtst_swaps_counterexample :
    run_vasp_custodian id (fun s => [s]) (fun _ => 0)
        [("handlers", Val.list [Val.str "Bogus"]), ("validators", Val.list [])] =
      Except.error (PyError.keyError "vtst_swaps") ∧
    ∀ m, (Except.error (PyError.keyError "vtst_swaps") : Except PyError Outcome) ≠
      Except.error (PyError.valueError m) := by
  refine ⟨rfl, ?_⟩
  intro m h
  simp at h

/-- C2 (amended): on every configuration that carries a vtst_swaps entry and
string name lists, an unrecognized handler or validator name makes the script
raise ValueError naming the first such name (handlers checked first), for
every choice of the external command helpers, so before any VaspJob is
constructed or any command run. -/
theorem run_vasp_custodian_unknown_flag_value_error
    (ev : String → String) (sp : String → List String) (sub : String → Int)
    (cfg : Config) (vtst : Val) (hnames vnames : List String) (m : String)
    (h1 : dictLookup "vtst_swaps" cfg = some vtst)
    (h2 : dictLookup "handlers" cfg = some (Val.list (hnames.map Val.str)))
    (h3 : dictLookup "validators" cfg = some (Val.list (vnames.map Val.str)))
    (hm : first_unknown_flag_message hnames vnames = some m) :
    run_vasp_custodian ev sp sub cfg = Except.error (PyError.valueError m) := by
  cases hfind : hnames.find? (fun n => !(is_known_handler n)) with
  | some n =>
    have hmn : m = "Unknown VASP error handler: " ++ n := by
      simp [first_unknown_flag_message, hfind] at hm
      exact hm.symm
    have hsel := select_handlers_first_unknown vtst hnames n hfind
    subst hmn
    rw [run_vasp_custodian]
    simp only [cfgGetE, h1, h2, pyIter, hsel, Bind.bind, Except.bind]
  | none =>
    have hall : ∀ n ∈ hnames, is_known_handler n = true := by
      intro n hn
      have := List.find?_eq_none.mp hfind n hn
      simpa using this
    have hsel := select_handlers_all_known vtst hnames hall
    cases vfind : vnames.find? (fun n => !(is_known_validator n)) with
    | none => simp [first_unknown_flag_message, hfind, vfind] at hm
    | some n =>
      have hmn : m = "Unknown VASP validator: " ++ n := by
        simp [first_unknown_flag_message, hfind, vfind] at hm
        exact hm.symm
      have vsel := select_validators_first_unknown vnames n vfind
      subst hmn
      rw [run_vasp_custodian]
      simp only [cfgGetE, h1, h2, h3, pyIter, hsel, vsel, Bind.bind, Except.bind]

/-- C2 (witness): a configuration whose handler list holds one recognized and
one unrecognized name. -/
theorem run_vasp_custodian_unknown_flag_value_error_witness :
    run_vasp_custodian id (fun s => [s]) (fun _ => 0)
        [("vtst_swaps", Val.int 0),
         ("handlers", Val.list [Val.str "VaspErrorHandler", Val.str "Bogus"]),
         ("validators", Val.list [])] =
      Except.error (PyError.valueError "Unknown VASP error handler: Bogus") :=
  run_vasp_custodian_unknown_flag_value_error id (fun s => [s]) (fun _ => 0)
    [("vtst_swaps", Val.int 0),
     ("handlers", Val.list [Val.str "VaspErrorHandler", Val.str "Bogus"]),
     ("validators", Val.list [])]
    (Val.int 0) ["VaspErrorHandler", "Bogus"] [] "Unknown VASP error handler: Bogus"
    rfl rfl rfl (by decide)

/-! ## C4: the lists handed to Custodian -/

/-- C4: whenever the script reaches its one Custodian construction, the
handler list is exactly the instances named in the handlers entry in order,
followed by one extra WalltimeHandler exactly when custodian_wall_time is
present and non-null; the validator list is exactly the named instances in
order; and max_errors is the max_errors entry, 5 when absent. -/
theorem run_vasp_custodian_handler_validator_lists
    (ev : String → String) (sp : String → List String) (sub : String → Int)
    (cfg : Config) (vtst : Val) (hnames vnames : List String) (kvs : Config)
    (p c g : String)
    (h1 : dictLookup "vtst_swaps" cfg = some vtst)
    (h2 : dictLookup "handlers" cfg = some (Val.list (hnames.map Val.str)))
    (h3 : ∀ n ∈ hnames, is_known_handler n = true)
    (h4 : dictLookup "validators" cfg = some (Val.list (vnames.map Val.str)))
    (h5 : ∀ n ∈ vnames, is_known_validator n = true)
    (h6 : pyTruthy (cfgGetD cfg "custodian_enabled" (Val.bool true)) = true)
    (h7 : cfgGetD cfg "vasp_parallel_cmd" (Val.str "") = Val.str p)
    (h8 : cfgGetD cfg "vasp_cmd" (Val.str "vasp_std") = Val.str c)
    (h9 : cfgGetD cfg "vasp_gamma_cmd" (Val.str "vasp_gam") = Val.str g)
    (h10 : cfgGetD cfg "vasp_job_kwargs" Val.null = Val.dict kvs)
    (h11 : cfgGetD cfg "custodian_kwargs" Val.null = Val.null) :
    ∀ cc, run_vasp_custodian ev sp sub cfg = Except.ok (Outcome.custodianRun cc) →
      ((dictLookup "custodian_wall_time" cfg = none ∨
        dictLookup "custodian_wall_time" cfg = some Val.null) →
        cc.handlers = hnames.filterMap (fun n => dictLookup n (handlers_dict vtst))) ∧
      (∀ w, dictLookup "custodian_wall_time" cfg = some w → w ≠ Val.null →
        cc.handlers = hnames.filterMap (fun n => dictLookup n (handlers_dict vtst)) ++
          [Handler.walltimeHandler (some w)]) ∧
      cc.validators = vnames.filterMap (fun n => dictLookup n validators_dict) ∧
      (∀ v, dictLookup "max_errors" cfg = some v → cc.max_errors = v) ∧
      (dictLookup "max_errors" cfg = none → cc.max_errors = Val.int 5) := by
  intro cc hrun
  have hshape := run_vasp_custodian_custodian_shape ev sp sub cfg vtst hnames vnames kvs
    p c g h1 h2 h3 h4 h5 h6 h7 h8 h9 h10 h11
  rw [hrun] at hshape
  injection hshape with hout
  injection hout with hcc
  subst hcc
  refine ⟨?_, ?_, rfl, ?_, ?_⟩
  · intro hw
    rcases hw with hw | hw <;> simp [cfgGetD, hw, isNull]
  · intro w hw hwn
    have hwfalse : isNull w = false := by
      rw [Bool.eq_false_iff]
      intro hc
      exact hwn ((isNull_eq_true w).mp hc)
    simp [cfgGetD, hw, hwfalse]
  · intro v hv
    simp [cfgGetD, hv]
  · intro hv
    simp [cfgGetD, hv]

/-- C4 (witness): two recognized handlers, one validator, a wall time of
3600 and max_errors 7. -/
theorem run_vasp_custodian_handler_validator_lists_witness :
    run_vasp_custodian id (fun s => [s]) (fun _ => 0)
        [("vtst_swaps", Val.bool false),
         ("handlers", Val.list [Val.str "StdErrHandler", Val.str "VaspErrorHandler"]),
         ("validators", Val.list [Val.str "VaspFilesValidator"]),
         ("custodian_wall_time", Val.int 3600), ("max_errors", Val.int 7),
         ("vasp_job_kwargs", Val.dict [])] =
      Except.ok (Outcome.custodianRun (CustodianCall.mk
        [Handler.stdErrHandler, Handler.vaspErrorHandler (Val.bool false),
         Handler.walltimeHandler (some (Val.int 3600))]
        [VaspJobCall.mk [" vasp_std"]
          [("auto_npar", Val.bool false), ("gamma_vasp_cmd", Val.list [Val.str " vasp_gam"])]]
        [Validator.vaspFilesValidator] (Val.int 7) Val.null [])) ∧
    (CustodianCall.mk
        [Handler.stdErrHandler, Handler.vaspErrorHandler (Val.bool false),
         Handler.walltimeHandler (some (Val.int 3600))]
        [VaspJobCall.mk [" vasp_std"]
          [("auto_npar", Val.bool false), ("gamma_vasp_cmd", Val.list [Val.str " vasp_gam"])]]
        [Validator.vaspFilesValidator] (Val.int 7) Val.null []).handlers =
      [Handler.stdErrHandler, Handler.vaspErrorHandler (Val.bool false),
       Handler.walltimeHandler (some (Val.int 3600))] ∧
    (CustodianCall.mk
        [Handler.stdErrHandler, Handler.vaspErrorHandler (Val.bool false),
         Handler.walltimeHandler (some (Val.int 3600))]
        [VaspJobCall.mk [" vasp_std"]
          [("auto_npar", Val.bool false), ("gamma_vasp_cmd", Val.list [Val.str " vasp_gam"])]]
        [Validator.vaspFilesValidator] (Val.int 7) Val.null []).max_errors = Val.int 7 := by
  have hrun : run_vasp_custodian id (fun s => [s]) (fun _ => 0)
      [("vtst_swaps", Val.bool false),
       ("handlers", Val.list [Val.str "StdErrHandler", Val.str "VaspErrorHandler"]),
       ("validators", Val.list [Val.str "VaspFilesValidator"]),
       ("custodian_wall_time", Val.int 3600), ("max_errors", Val.int 7),
       ("vasp_job_kwargs", Val.dict [])] =
      Except.ok (Outcome.custodianRun (CustodianCall.mk
        [Handler.stdErrHandler, Handler.vaspErrorHandler (Val.bool false),
         Handler.walltimeHandler (some (Val.int 3600))]
        [VaspJobCall.mk [" vasp_std"]
          [("auto_npar", Val.bool false), ("gamma_vasp_cmd", Val.list [Val.str " vasp_gam"])]]
        [Validator.vaspFilesValidator] (Val.int 7) Val.null [])) := rfl
  obtain ⟨ha, hb, hc, hd, he⟩ := run_vasp_custodian_handler_validator_lists
    id (fun s => [s]) (fun _ => 0)
    [("vtst_swaps", Val.bool false),
     ("handlers", Val.list [Val.str "StdErrHandler", Val.str "VaspErrorHandler"]),
     ("validators", Val.list [Val.str "VaspFilesValidator"]),
     ("custodian_wall_time", Val.int 3600), ("max_errors", Val.int 7),
     ("vasp_job_kwargs", Val.dict [])]
    (Val.bool false) ["StdErrHandler", "VaspErrorHandler"] ["VaspFilesValidator"] []
    "" "vasp_std" "vasp_gam" rfl rfl (by decide) rfl (by decide) rfl rfl rfl rfl rfl rfl
    _ hrun
  refine ⟨hrun, ?_, hd (Val.int 7) rfl⟩
  have hwit := hb (Val.int 3600) rfl (by intro hh; cases hh)
  exact hwit

/-! ## C5: command construction -/

/-- C5: whenever the script reaches its Custodian construction, the command
of the one VaspJob is the shlex split of the expandvars expansion of
vasp_parallel_cmd (default empty), a space, and vasp_cmd (default vasp_std);
the gamma command handed to the job is formed the same way from
vasp_gamma_cmd (default vasp_gam). -/
theorem run_vasp_custodian_command_construction
    (ev : String → String) (sp : String → List String) (sub : String → Int)
    (cfg : Config) (vtst : Val) (hnames vnames : List String) (kvs : Config)
    (p c g : String)
    (h1 : dictLookup "vtst_swaps" cfg = some vtst)
    (h2 : dictLookup "handlers" cfg = some (Val.list (hnames.map Val.str)))
    (h3 : ∀ n ∈ hnames, is_known_handler n = true)
    (h4 : dictLookup "validators" cfg = some (Val.list (vnames.map Val.str)))
    (h5 : ∀ n ∈ vnames, is_known_validator n = true)
    (h6 : pyTruthy (cfgGetD cfg "custodian_enabled" (Val.bool true)) = true)
    (h7 : cfgGetD cfg "vasp_parallel_cmd" (Val.str "") = Val.str p)
    (h8 : cfgGetD cfg "vasp_cmd" (Val.str "vasp_std") = Val.str c)
    (h9 : cfgGetD cfg "vasp_gamma_cmd" (Val.str "vasp_gam") = Val.str g)
    (h10 : cfgGetD cfg "vasp_job_kwargs" Val.null = Val.dict kvs)
    (h11 : cfgGetD cfg "custodian_kwargs" Val.null = Val.null) :
    ∀ cc, run_vasp_custodian ev sp sub cfg = Except.ok (Outcome.custodianRun cc) →
      cc.jobs.map VaspJobCall.cmd = [sp (ev (p ++ " " ++ c))] ∧
      cc.jobs.map (fun j => dictLookup "gamma_vasp_cmd" j.kwargs) =
        [some (Val.list ((sp (ev (p ++ " " ++ g))).map Val.str))] := by
  intro cc hrun
  have hshape := run_vasp_custodian_custodian_shape ev sp sub cfg vtst hnames vnames kvs
    p c g h1 h2 h3 h4 h5 h6 h7 h8 h9 h10 h11
  rw [hrun] at hshape
  injection hshape with hout
  injection hout with hcc
  subst hcc
  constructor
  · rfl
  · simp [dictLookup_dictSet_self]

/-- C5 (witness): a parallel command with arguments, split on spaces. -/
theorem run_vasp_custodian_command_construction_witness :
    run_vasp_custodian id splitSpaces (fun _ => 0)
        [("vtst_swaps", Val.null),
         ("handlers", Val.list []), ("validators", Val.list []),
         ("vasp_parallel_cmd", Val.str "mpirun -np 4"),
         ("vasp_job_kwargs", Val.dict [])] =
      Except.ok (Outcome.custodianRun (CustodianCall.mk []
        [VaspJobCall.mk ["mpirun", "-np", "4", "vasp_std"]
          [("auto_npar", Val.bool false),
           ("gamma_vasp_cmd",
             Val.list [Val.str "mpirun", Val.str "-np", Val.str "4", Val.str "vasp_gam"])]]
        [] (Val.int 5) Val.null [])) ∧
    (CustodianCall.mk []
        [VaspJobCall.mk ["mpirun", "-np", "4", "vasp_std"]
          [("auto_npar", Val.bool false),
           ("gamma_vasp_cmd",
             Val.list [Val.str "mpirun", Val.str "-np", Val.str "4", Val.str "vasp_gam"])]]
        [] (Val.int 5) Val.null []).jobs.map VaspJobCall.cmd =
      [["mpirun", "-np", "4", "vasp_std"]] := by
  have hrun : run_vasp_custodian id splitSpaces (fun _ => 0)
      [("vtst_swaps", Val.null),
       ("handlers", Val.list []), ("validators", Val.list []),
       ("vasp_parallel_cmd", Val.str "mpirun -np 4"),
       ("vasp_job_kwargs", Val.dict [])] =
      Except.ok (Outcome.custodianRun (CustodianCall.mk []
        [VaspJobCall.mk ["mpirun", "-np", "4", "vasp_std"]
          [("auto_npar", Val.bool false),
           ("gamma_vasp_cmd",
             Val.list [Val.str "mpirun", Val.str "-np", Val.str "4", Val.str "vasp_gam"])]]
        [] (Val.int 5) Val.null [])) := rfl
  obtain ⟨ha, hb⟩ := run_vasp_custodian_command_construction
    id splitSpaces (fun _ => 0)
    [("vtst_swaps", Val.null),
     ("handlers", Val.list []), ("validators", Val.list []),
     ("vasp_parallel_cmd", Val.str "mpirun -np 4"),
     ("vasp_job_kwargs", Val.dict [])]
    Val.null [] [] [] "mpirun -np 4" "vasp_std" "vasp_gam"
    rfl rfl (by decide) rfl (by decide) rfl rfl rfl rfl rfl rfl _ hrun
  exact ⟨hrun, ha⟩

/-! ## C8: auto_npar and gamma_vasp_cmd overwritten -/

/-- C8: whenever vasp_job_kwargs is a dictionary and the script reaches its
Custodian construction, every constructed VaspJob carries auto_npar false and
gamma_vasp_cmd equal to the split gamma command, user-supplied values for
either key notwithstanding. -/
theorem run_vasp_custodian_overrides_auto_npar_gamma
    (ev : String → String) (sp : String → List String) (sub : String → Int)
    (cfg : Config) (vtst : Val) (hnames vnames : List String) (kvs : Config)
    (p c g : String)
    (h1 : dictLookup "vtst_swaps" cfg = some vtst)
    (h2 : dictLookup "handlers" cfg = some (Val.list (hnames.map Val.str)))
    (h3 : ∀ n ∈ hnames, is_known_handler n = true)
    (h4 : dictLookup "validators" cfg = some (Val.list (vnames.map Val.str)))
    (h5 : ∀ n ∈ vnames, is_known_validator n = true)
    (h6 : pyTruthy (cfgGetD cfg "custodian_enabled" (Val.bool true)) = true)
    (h7 : cfgGetD cfg "vasp_parallel_cmd" (Val.str "") = Val.str p)
    (h8 : cfgGetD cfg "vasp_cmd" (Val.str "vasp_std") = Val.str c)
    (h9 : cfgGetD cfg "vasp_gamma_cmd" (Val.str "vasp_gam") = Val.str g)
    (h10 : cfgGetD cfg "vasp_job_kwargs" Val.null = Val.dict kvs)
    (h11 : cfgGetD cfg "custodian_kwargs" Val.null = Val.null) :
    ∀ cc, run_vasp_custodian ev sp sub cfg = Except.ok (Outcome.custodianRun cc) →
      ∀ j ∈ cc.jobs,
        dictLookup "auto_npar" j.kwargs = some (Val.bool false) ∧
        dictLookup "gamma_vasp_cmd" j.kwargs =
          some (Val.list ((sp (ev (p ++ " " ++ g))).map Val.str)) := by
  intro cc hrun j hj
  have hshape := run_vasp_custodian_custodian_shape ev sp sub cfg vtst hnames vnames kvs
    p c g h1 h2 h3 h4 h5 h6 h7 h8 h9 h10 h11
  rw [hrun] at hshape
  injection hshape with hout
  injection hout with hcc
  subst hcc
  simp only [CustodianCall.jobs, List.mem_singleton] at hj
  subst hj
  constructor
  · rw [dictLookup_dictSet_ne _ "auto_npar" "gamma_vasp_cmd" _ (by decide)]
    exact dictLookup_dictSet_self kvs "auto_npar" (Val.bool false)
  · exact dictLookup_dictSet_self _ "gamma_vasp_cmd" _

/-- C8 (witness): the user supplies auto_npar true and a bogus
gamma_vasp_cmd; both are overwritten before the job is built. -/
theorem run_vasp_custodian_overrides_auto_npar_gamma_witness :
    run_vasp_custodian id (fun s => [s]) (fun _ => 0)
        [("vtst_swaps", Val.bool false),
         ("handlers", Val.list []), ("validators", Val.list []),
         ("vasp_job_kwargs",
           Val.dict [("auto_npar", Val.bool true), ("gamma_vasp_cmd", Val.str "bogus")])] =
      Except.ok (Outcome.custodianRun (CustodianCall.mk []
        [VaspJobCall.mk [" vasp_std"]
          [("auto_npar", Val.bool false), ("gamma_vasp_cmd", Val.list [Val.str " vasp_gam"])]]
        [] (Val.int 5) Val.null [])) ∧
    dictLookup "auto_npar"
        (VaspJobCall.mk [" vasp_std"]
          [("auto_npar", Val.bool false),
           ("gamma_vasp_cmd", Val.list [Val.str " vasp_gam"])]).kwargs =
      some (Val.bool false) ∧
    dictLookup "gamma_vasp_cmd"
        (VaspJobCall.mk [" vasp_std"]
          [("auto_npar", Val.bool false),
           ("gamma_vasp_cmd", Val.list [Val.str " vasp_gam"])]).kwargs =
      some (Val.list [Val.str " vasp_gam"]) := by
  have hrun : run_vasp_custodian id (fun s => [s]) (fun _ => 0)
      [("vtst_swaps", Val.bool false),
       ("handlers", Val.list []), ("validators", Val.list []),
       ("vasp_job_kwargs",
         Val.dict [("auto_npar", Val.bool true), ("gamma_vasp_cmd", Val.str "bogus")])] =
      Except.ok (Outcome.custodianRun (CustodianCall.mk []
        [VaspJobCall.mk [" vasp_std"]
          [("auto_npar", Val.bool false), ("gamma_vasp_cmd", Val.list [Val.str " vasp_gam"])]]
        [] (Val.int 5) Val.null [])) := rfl
  have hj := run_vasp_custodian_overrides_auto_npar_gamma
    id (fun s => [s]) (fun _ => 0)
    [("vtst_swaps", Val.bool false),
     ("handlers", Val.list []), ("validators", Val.list []),
     ("vasp_job_kwargs",
       Val.dict [("auto_npar", Val.bool true), ("gamma_vasp_cmd", Val.str "bogus")])]
    (Val.bool false) [] [] [("auto_npar", Val.bool true), ("gamma_vasp_cmd", Val.str "bogus")]
    "" "vasp_std" "vasp_gam" rfl rfl (by decide) rfl (by decide) rfl rfl rfl rfl rfl rfl
    _ hrun
    (VaspJobCall.mk [" vasp_std"]
      [("auto_npar", Val.bool false), ("gamma_vasp_cmd", Val.list [Val.str " vasp_gam"])])
    (by simp)
  exact ⟨hrun, hj.1, hj.2⟩

/-! ## C9: the custodian-disabled branch -/

/-- C9 (counterexample): with custodian_enabled false, recognized (empty)
name lists and no vasp_job_kwargs entry, the script raises TypeError at the
auto_npar assignment of line 88 instead of running the command once and
completing: the claim fails for configurations without a vasp_job_kwargs
dictionary. -/
theorem non_custodian_missing_vasp_job_kwargs_counterexample :
    run_vasp_custodian id (fun s => [s]) (fun _ => 1)
      [("vtst_swaps", Val.bool false), ("handlers", Val.list []),
       ("validators", Val.list []), ("custodian_enabled", Val.bool false)] =
    Except.error (PyError.typeError "object does not support item assignment") :=
  rfl

/-- C9 (amended): on every configuration that carries a vtst_swaps entry,
whose handlers and validators entries are lists of recognized names, whose
command fields are strings or absent, whose vasp_job_kwargs is a dictionary
and whose custodian_enabled is falsy, the script builds no Custodian call:
the outcome is one shell invocation of the expanded command string, and the
run completes normally whatever return code the subprocess function yields,
that return code never being inspected. -/
theorem run_vasp_custodian_disabled_subprocess
    (ev : String → String) (sp : String → List String) (sub : String → Int)
    (cfg : Config) (vtst : Val) (hnames vnames : List String) (kvs : Config)
    (p c g : String)
    (h1 : dictLookup "vtst_swaps" cfg = some vtst)
    (h2 : dictLookup "handlers" cfg = some (Val.list (hnames.map Val.str)))
    (h3 : ∀ n ∈ hnames, is_known_handler n = true)
    (h4 : dictLookup "validators" cfg = some (Val.list (vnames.map Val.str)))
    (h5 : ∀ n ∈ vnames, is_known_validator n = true)
    (h6 : pyTruthy (cfgGetD cfg "custodian_enabled" (Val.bool true)) = false)
    (h7 : cfgGetD cfg "vasp_parallel_cmd" (Val.str "") = Val.str p)
    (h8 : cfgGetD cfg "vasp_cmd" (Val.str "vasp_std") = Val.str c)
    (h9 : cfgGetD cfg "vasp_gamma_cmd" (Val.str "vasp_gam") = Val.str g)
    (h10 : cfgGetD cfg "vasp_job_kwargs" Val.null = Val.dict kvs) :
    run_vasp_custodian ev sp sub cfg =
      Except.ok (Outcome.subprocessRun (ev (p ++ " " ++ c)) (sub (ev (p ++ " " ++ c)))) := by
  have hsel := select_handlers_all_known vtst hnames h3
  have vsel := select_validators_all_known vnames h5
  rw [run_vasp_custodian]
  simp only [cfgGetE, h1, h2, h4, h6, h7, h8, h9, h10, pyIter, hsel, vsel,
    asStr, setItem, Bind.bind, Except.bind, Bool.false_eq_true, if_false,
    dictLookup_dictSet_self, Option.isNone_some, String.append_assoc]

/-- C9 (witness): custodian disabled and a subprocess returning the nonzero
code 42; the script still completes, reporting the one command it ran. -/
theorem run_vasp_custodian_disabled_subprocess_witness :
    run_vasp_custodian id (fun s => [s]) (fun _ => 42)
      [("vtst_swaps", Val.null),
       ("handlers", Val.list [Val.str "VaspErrorHandler"]),
       ("validators", Val.list [Val.str "VasprunXMLValidator"]),
       ("custodian_enabled", Val.bool false), ("vasp_job_kwargs", Val.dict [])] =
    Except.ok (Outcome.subprocessRun " vasp_std" 42) :=
  run_vasp_custodian_disabled_subprocess id (fun s => [s]) (fun _ => 42)
    [("vtst_swaps", Val.null),
     ("handlers", Val.list [Val.str "VaspErrorHandler"]),
     ("validators", Val.list [Val.str "VasprunXMLValidator"]),
     ("custodian_enabled", Val.bool false), ("vasp_job_kwargs", Val.dict [])]
    Val.null ["VaspErrorHandler"] ["VasprunXMLValidator"] [] "" "vasp_std" "vasp_gam"
    rfl rfl (by decide) rfl (by decide) rfl rfl rfl rfl rfl
